import Mathlib

/-!
Verification of `onelogin/get.go` (clisso OneLogin credential flow).

The Go source is embedded shallowly: every external collaborator (config
lookup, OneLogin HTTP client, terminal, AWS STS) is an oracle supplied in an
`Env` record, and `Get` is a pure function of that record which also returns
a trace of the calls it made.  Machine integers that matter (`timeout`,
`selection`, device ids, durations) are modelled as `Int`/`Nat`; all values
involved are tiny so overflow never occurs in the source either.
-/

namespace Onelogin

/-- Modelled from the spec: an MFA `Device` as used by `get.go`
(`DeviceId` is numeric — it is printed with `%d` — and `DeviceType` is a
string); the struct itself lives outside the given source file. -/
structure Device where
  deviceId : Int
  deviceType : String
deriving Repr, DecidableEq

/-- Modelled from the spec: the `Status` part of a verify-factor response
(`{status: pending|accepted|rejected, message}`). -/
structure Status where
  type : String
  message : String
deriving Repr, DecidableEq

/-- Modelled from the spec: a `VerifyFactorResponse` — a status plus the
assertion payload (`Data`) returned on acceptance. -/
structure VerifyFactorResponse where
  status : Status
  data : String
deriving Repr, DecidableEq

/-- The parameters of one verify-factor call, exactly the fields built by
`Get` in `get.go` (`VerifyFactorParams`). -/
structure VerifyFactorParams where
  appId : String
  deviceId : String
  stateToken : String
  otpToken : String
  doNotNotify : Bool
deriving Repr, DecidableEq

/-- Modelled from the spec: one element of the SAML-assertion response's
`Data` list, carrying the state token and the MFA device set. -/
structure SamlData where
  stateToken : String
  devices : List Device
deriving Repr, DecidableEq

/-- Modelled from the spec: the SAML-assertion response (`rSaml`), whose
`Data` field is a list. -/
structure SamlResponse where
  data : List SamlData
deriving Repr, DecidableEq

/-- Modelled from the spec: the provider/role ARN pair extracted by
`saml.Get` from the verified assertion. -/
structure Arn where
  provider : String
  role : String
deriving Repr, DecidableEq

/-- Modelled from the spec: temporary cloud credentials
(`aws.Credentials`): access key, secret key, session token, expiration. -/
structure Credentials where
  accessKeyId : String
  secretAccessKey : String
  sessionToken : String
  expiration : Int
deriving Repr, DecidableEq

/-- Modelled from the spec: provider configuration
(region/subdomain, client id/secret, optional pre-filled username). -/
structure ProviderConfig where
  region : String
  clientID : String
  clientSecret : String
  username : String
  subdomain : String
deriving Repr, DecidableEq

/-- Modelled from the spec: app configuration (target application id). -/
structure AppConfig where
  id : String
deriving Repr, DecidableEq

/-- `MFADeviceOneLoginProtect` from `get.go`: the device type that supports
push notifications. -/
def MFADeviceOneLoginProtect : String := "OneLogin Protect"

/-- `MFAPushTimeout` from `get.go`: seconds to wait for a successful push
before falling back to OTP input. -/
def MFAPushTimeout : Nat := 30

/-- `MFAInterval` from `get.go`: polling interval in seconds. -/
def MFAInterval : Nat := 1

/-- Modelled from the spec: `aws.ErrDurationExceeded`, the distinguished
error string the AWS layer returns when the requested duration exceeds the
role's maximum; `Get` compares `err.Error()` against it verbatim. -/
def ErrDurationExceeded : String := "DurationExceeded"

/-- One terminal read event for `fmt.Scanln` inside the device-selection
loop: either the read itself failed, or it produced a token. -/
inductive InputEvent where
  | readErr (msg : String)
  | line (s : String)
deriving Repr, DecidableEq

/-- `strconv.Atoi`: an optional sign followed by at least one decimal
digit; anything else is an error (`none`).  Modelled at arbitrary
precision — every accepted value is compared against `1..len(devices)`
immediately afterwards, so the int64 range plays no role. -/
def atoi (s : String) : Option Int :=
  let cs := s.toList
  let signed : Int × List Char :=
    match cs with
    | '+' :: rest => (1, rest)
    | '-' :: rest => (-1, rest)
    | _ => (1, cs)
  match signed with
  | (sign, ds) =>
    if ds = [] then none
    else if ds.all Char.isDigit then
      some (sign * (ds.foldl (fun a c => a * 10 + (c.toNat - 48)) 0 : Nat))
    else none

/-- The menu printed on each iteration of the selection loop:
`fmt.Printf("%d. %d - %s\n", i+1, d.DeviceId, d.DeviceType)` for each
device, i.e. a 1-indexed enumeration. -/
def deviceMenu (devices : List Device) : List String :=
  (List.range devices.length).map fun i =>
    toString (i + 1) ++ ". " ++
      toString ((devices.getD i ⟨0, ""⟩).deviceId) ++ " - " ++
      (devices.getD i ⟨0, ""⟩).deviceType

/-- The `for { ... }` selection loop of `getDevice`: read a token; on a
read error or a non-integer or an out-of-range value, re-prompt (consume
the next event); on a valid selection `1 ≤ k ≤ n`, stop.  Returns the
selection and the unconsumed input, or `none` when the supplied input is
exhausted without a valid selection (the Go loop would still be waiting
for input — it never returns in that case). -/
def selectLoop (n : Nat) : List InputEvent → Option (Int × List InputEvent)
  | [] => none
  | InputEvent.readErr _ :: rest => selectLoop n rest
  | InputEvent.line s :: rest =>
    match atoi s with
    | none => selectLoop n rest
    | some k => if k < 1 ∨ k > (n : Int) then selectLoop n rest else some (k, rest)

/-- `getDevice` from `get.go`.  Empty set: returns the
"No MFA device returned by Onelogin" error.  Singleton: returns that
device's id (via `fmt.Sprintf("%v", ...)`) and type with no interaction.
Otherwise: runs the selection loop and returns the 1-indexed choice.
The result is `none` when the loop never completes for lack of input. -/
def getDevice (devices : List Device) (inputs : List InputEvent) :
    Option (Except String (String × String) × List InputEvent) :=
  match devices with
  | [] => some (Except.error "No MFA device returned by Onelogin", inputs)
  | [d] => some (Except.ok (toString d.deviceId, d.deviceType), inputs)
  | _ =>
    match selectLoop devices.length inputs with
    | none => none
    | some (selection, rest) =>
      let d := devices.getD (selection - 1).toNat ⟨0, ""⟩
      some (Except.ok (toString d.deviceId, d.deviceType), rest)

/-- The push-polling `for` loop of `Get`:
`for rMfa.Status.Type == "pending" && timeout > 0 { sleep; rMfa, err = VerifyFactor(...); if err { return }; timeout -= MFAInterval }`.
`vf i` is the response of the i-th verify-factor call of the whole flow;
`idx` is the index of the next call.  Returns the final response (or the
transport error that aborted the loop) together with the number of
verify-factor calls the loop performed.  `MFAInterval = 1`, so each
iteration consumes one unit of the `timeout` fuel. -/
def pushPoll (vf : Nat → Except String VerifyFactorResponse) (idx : Nat)
    (rMfa : VerifyFactorResponse) :
    Nat → Except String VerifyFactorResponse × Nat
  | 0 => (Except.ok rMfa, 0)
  | t + 1 =>
    if rMfa.status.type = "pending" then
      match vf idx with
      | Except.error e => (Except.error e, 1)
      | Except.ok r =>
        let rec' := pushPoll vf (idx + 1) r t
        (rec'.1, rec'.2 + 1)
    else (Except.ok rMfa, 0)

/-- The outcome of the MFA section of `Get` (lines 96–163): the final
verify-factor result, the list of verify-factor calls issued (in order),
whether the push timed out, and whether the manual-OTP branch ran. -/
structure MfaResult where
  result : Except String VerifyFactorResponse
  calls : List VerifyFactorParams
  timedOut : Bool
  otpUsed : Bool
deriving Repr

/-- The manual-OTP branch of `Get` (lines 142–163): one verify-factor call
carrying the entered code, with a transport error wrapped as
`"verifying factor: %v"`. -/
def otpSubmit (vf : Nat → Except String VerifyFactorResponse) (idx : Nat)
    (otp appId deviceID st : String) :
    Except String VerifyFactorResponse × VerifyFactorParams :=
  let p : VerifyFactorParams :=
    { appId := appId, deviceId := deviceID, stateToken := st,
      otpToken := otp, doNotNotify := false }
  match vf idx with
  | Except.error e => (Except.error ("verifying factor: " ++ e), p)
  | Except.ok r => (Except.ok r, p)

/-- The MFA section of `Get` (lines 96–163).  For a push-capable device:
initial verify-factor call with `doNotNotify=false`; on success, poll with
`doNotNotify=true` under the 30-second budget; if the status is still
"pending" afterwards, announce the timeout and fall through to the OTP
branch.  For any other device type: the OTP branch directly. -/
def mfaPhase (vf : Nat → Except String VerifyFactorResponse)
    (otp appId deviceID st deviceType : String) : MfaResult :=
  if deviceType = MFADeviceOneLoginProtect then
    let p0 : VerifyFactorParams :=
      { appId := appId, deviceId := deviceID, stateToken := st,
        otpToken := "", doNotNotify := false }
    match vf 0 with
    | Except.error e =>
      { result := Except.error e, calls := [p0], timedOut := false, otpUsed := false }
    | Except.ok r0 =>
      let p1 := { p0 with doNotNotify := true }
      let polled := pushPoll vf 1 r0 MFAPushTimeout
      let pushCalls := p0 :: List.replicate polled.2 p1
      match polled.1 with
      | Except.error e =>
        { result := Except.error e, calls := pushCalls,
          timedOut := false, otpUsed := false }
      | Except.ok r =>
        if r.status.type = "pending" then
          let sub := otpSubmit vf (1 + polled.2) otp appId deviceID st
          { result := sub.1, calls := pushCalls ++ [sub.2],
            timedOut := true, otpUsed := true }
        else
          { result := Except.ok r, calls := pushCalls,
            timedOut := false, otpUsed := false }
  else
    let sub := otpSubmit vf 0 otp appId deviceID st
    { result := sub.1, calls := [sub.2], timedOut := false, otpUsed := true }

/-- The credential-exchange section of `Get` (lines 170–183):
`aws.AssumeSAMLRole` with the requested duration; if it fails with exactly
`aws.ErrDurationExceeded`, log the informational message and retry once
with duration 3600; return the last attempt's credentials and error.
`assume i d` is the response of the i-th role-assumption attempt, requested
with duration `d`.  Returns the result, the list of requested durations,
and whether the informational duration-exceeded notice was logged. -/
def exchangePhase (assume : Nat → Int → Except String Credentials)
    (duration : Int) : Except String Credentials × List Int × Bool :=
  match assume 0 duration with
  | Except.ok c => (Except.ok c, [duration], false)
  | Except.error e =>
    if e = ErrDurationExceeded then
      match assume 1 3600 with
      | Except.ok c => (Except.ok c, [duration, 3600], true)
      | Except.error e2 => (Except.error e2, [duration, 3600], true)
    else (Except.error e, [duration], false)

/-- The external world of one `Get` invocation: each field is the outcome
of the corresponding collaborator call, in source order.  Verify-factor and
role-assumption responses are indexed by call number (the servers are
stateful); `samlGet` is `saml.Get` applied to the verified payload. -/
structure Env where
  getProvider : Except String ProviderConfig
  getApp : Except String AppConfig
  newClient : Except String Unit
  generateTokens : Except String String
  usernameInput : String
  getPasswd : Except String String
  generateSamlAssertion : Except String SamlResponse
  deviceInputs : List InputEvent
  verifyFactor : Nat → Except String VerifyFactorResponse
  otpInput : String
  samlGet : String → Except String Arn
  assumeRole : Nat → Int → Except String Credentials

/-- What `Get` hands back to its caller: credentials, an error, or a
runtime panic (the unchecked `rSaml.Data[0]` index). -/
inductive Outcome where
  | ok (creds : Credentials)
  | err (msg : String)
  | panic (msg : String)
deriving Repr, DecidableEq

/-- Observable side effects of one `Get` invocation. -/
structure Trace where
  verifyCalls : List VerifyFactorParams := []
  assumeDurations : List Int := []
  pushTimedOut : Bool := false
  durationExceededNotice : Bool := false
  otpPrompted : Bool := false
deriving Repr, DecidableEq

/-- Lines 91–183 of `get.go`: everything after a successful SAML-assertion
response, starting from its first `Data` element.  Note the faithful slip
at line 94 of the source: the error returned by `getDevice` is assigned to
`err` but never checked — `err` is overwritten by the next verify-factor
call — so on an error the flow continues with the zero values
`deviceID = ""`, `deviceType = ""`. -/
def afterAssertion (env : Env) (appId : String) (duration : Int)
    (d0 : SamlData) : Option (Outcome × Trace) :=
  let st := d0.stateToken
  let devices := d0.devices
  match getDevice devices env.deviceInputs with
  | none => none
  | some (devRes, _rest) =>
    let dev := match devRes with
      | Except.ok x => x
      | Except.error _ => ("", "")
    let m := mfaPhase env.verifyFactor env.otpInput appId dev.1 st dev.2
    let tr0 : Trace :=
      { verifyCalls := m.calls, pushTimedOut := m.timedOut,
        otpPrompted := m.otpUsed }
    match m.result with
    | Except.error e => some (Outcome.err e, tr0)
    | Except.ok rMfa =>
      match env.samlGet rMfa.data with
      | Except.error e => some (Outcome.err e, tr0)
      | Except.ok _arn =>
        let ex := exchangePhase env.assumeRole duration
        let tr : Trace :=
          { tr0 with assumeDurations := ex.2.1,
                     durationExceededNotice := ex.2.2 }
        match ex.1 with
        | Except.error e => some (Outcome.err e, tr)
        | Except.ok creds => some (Outcome.ok creds, tr)

/-- `Get` from `get.go`, assembled from the sections above in source
order.  `none` means the invocation never completes (the device-selection
loop ran out of input). -/
def Get (env : Env) (app _provider : String) (duration : Int) :
    Option (Outcome × Trace) :=
  match env.getProvider with
  | Except.error e => some (Outcome.err ("reading provider config: " ++ e), {})
  | Except.ok p =>
  match env.getApp with
  | Except.error e =>
    some (Outcome.err ("reading config for app " ++ app ++ ": " ++ e), {})
  | Except.ok a =>
  match env.newClient with
  | Except.error e => some (Outcome.err e, {})
  | Except.ok _ =>
  match env.generateTokens with
  | Except.error e => some (Outcome.err ("generating access token: " ++ e), {})
  | Except.ok _token =>
  let _user := if p.username = "" then env.usernameInput else p.username
  match env.getPasswd with
  | Except.error _ => some (Outcome.err "Couldn't read password from terminal", {})
  | Except.ok _pass =>
  match env.generateSamlAssertion with
  | Except.error e => some (Outcome.err ("generating SAML assertion: " ++ e), {})
  | Except.ok rSaml =>
  match rSaml.data with
  | [] => some (Outcome.panic "runtime error: index out of range [0] with length 0", {})
  | d0 :: _ => afterAssertion env a.id duration d0

/-- Whether one selection-loop input is rejected (and hence re-prompts):
a failed read, a non-integer token, or an integer outside `[1, n]`. -/
def invalidFor (n : Nat) : InputEvent → Bool
  | InputEvent.readErr _ => true
  | InputEvent.line s =>
    match atoi s with
    | none => true
    | some k => decide (k < 1) || decide (k > (n : Int))

/-- A `pending` verify-factor response used in concrete runs. -/
def pendR : VerifyFactorResponse := ⟨⟨"pending", "push sent"⟩, ""⟩

/-- An `accepted` verify-factor response used in concrete runs. -/
def accR : VerifyFactorResponse := ⟨⟨"accepted", "ok"⟩, "SAMLBLOB"⟩

/-- A `rejected` verify-factor response used in concrete runs. -/
def rejR : VerifyFactorResponse := ⟨⟨"rejected", "denied"⟩, "NOPE"⟩

/-- Concrete credentials used in concrete runs. -/
def credsA : Credentials := ⟨"AKIA", "SECRET", "TOKEN", 99⟩

/-- A concrete environment in which every collaborator succeeds at once:
one non-push device, an immediately accepted verify-factor call, and a
first-attempt role assumption. -/
def envBase : Env where
  getProvider := Except.ok ⟨"US", "cid", "csec", "alice", "corp"⟩
  getApp := Except.ok ⟨"app1"⟩
  newClient := Except.ok ()
  generateTokens := Except.ok "tok"
  usernameInput := ""
  getPasswd := Except.ok "pw"
  generateSamlAssertion := Except.ok ⟨[⟨"st1", [⟨111, "OneLogin SMS"⟩]⟩]⟩
  deviceInputs := []
  verifyFactor := fun _ => Except.ok accR
  otpInput := "123456"
  samlGet := fun _ => Except.ok ⟨"idpArn", "roleArn"⟩
  assumeRole := fun _ _ => Except.ok credsA

/-- `envBase` with an empty MFA device set in the assertion response. -/
def envC1 : Env :=
  { envBase with generateSamlAssertion := Except.ok ⟨[⟨"st1", []⟩]⟩ }

/-- `envBase` with every verify-factor call answered by a `rejected`
status (and no transport error). -/
def envC2 : Env :=
  { envBase with verifyFactor := fun _ => Except.ok rejR }

/-- `envBase` with a successful assertion response whose `Data` list is
empty. -/
def envC10 : Env :=
  { envBase with generateSamlAssertion := Except.ok ⟨[]⟩ }

/-! ### Helper lemmas -/

/-- The poll loop performs at most `t` verify-factor calls when started
with a budget of `t` intervals. -/
theorem pushPoll_count_le (vf : Nat → Except String VerifyFactorResponse) :
    ∀ (t idx : Nat) (r : VerifyFactorResponse), (pushPoll vf idx r t).2 ≤ t := by
  intro t
  induction t with
  | zero => intro idx r; exact Nat.le_refl 0
  | succ t ih =>
    intro idx r
    by_cases h : r.status.type = "pending"
    · cases hv : vf idx with
      | error e => simp [pushPoll, h, hv]
      | ok r2 =>
        have := ih (idx + 1) r2
        simp only [pushPoll, h, if_true, hv]
        omega
    · simp [pushPoll, h]

/-- Run of the poll loop that leaves `pending` on poll `k`: `r i` is the
response already in hand after `i` polls (`r 0` enters the loop), poll `i`
is verify-factor call `idx + i` and yields `r (i + 1)`.  If the first `k`
responses are `pending` and response `k` is not, the loop performs exactly
`k` calls and ends with response `k`. -/
theorem pushPoll_run (vf : Nat → Except String VerifyFactorResponse) :
    ∀ (k : Nat) (r : Nat → VerifyFactorResponse) (t idx : Nat), k ≤ t →
    (∀ i, i < k → (r i).status.type = "pending") →
    (∀ i, i < k → vf (idx + i) = Except.ok (r (i + 1))) →
    (r k).status.type ≠ "pending" →
    pushPoll vf idx (r 0) t = (Except.ok (r k), k) := by
  intro k
  induction k with
  | zero =>
    intro r t idx _ _ _ hnp
    cases t with
    | zero => rfl
    | succ t => simp [pushPoll, hnp]
  | succ k ih =>
    intro r t idx hkt hp hv hnp
    cases t with
    | zero => omega
    | succ t =>
      have h0 : (r 0).status.type = "pending" := hp 0 (by omega)
      have hv0 : vf idx = Except.ok (r 1) := by simpa using hv 0 (by omega)
      have hrec := ih (fun i => r (i + 1)) t (idx + 1) (by omega)
        (fun i hi => hp (i + 1) (by omega))
        (fun i hi => by
          have h := hv (i + 1) (by omega)
          have he : idx + 1 + i = idx + (i + 1) := by omega
          rw [he]; exact h)
        hnp
      simp only [pushPoll, h0, if_true, hv0, hrec]

/-- Run of the poll loop in which every response through the whole budget
stays `pending`: the loop performs exactly `t` calls and ends still
`pending`. -/
theorem pushPoll_pending (vf : Nat → Except String VerifyFactorResponse) :
    ∀ (t : Nat) (r : Nat → VerifyFactorResponse) (idx : Nat),
    (∀ i, i ≤ t → (r i).status.type = "pending") →
    (∀ i, i < t → vf (idx + i) = Except.ok (r (i + 1))) →
    pushPoll vf idx (r 0) t = (Except.ok (r t), t) := by
  intro t
  induction t with
  | zero => intro r idx _ _; rfl
  | succ t ih =>
    intro r idx hp hv
    have h0 : (r 0).status.type = "pending" := hp 0 (by omega)
    have hv0 : vf idx = Except.ok (r 1) := by simpa using hv 0 (by omega)
    have hrec := ih (fun i => r (i + 1)) (idx + 1)
      (fun i hi => hp (i + 1) (by omega))
      (fun i hi => by
        have h := hv (i + 1) (by omega)
        have he : idx + 1 + i = idx + (i + 1) := by omega
        rw [he]; exact h)
    simp only [pushPoll, h0, if_true, hv0, hrec]

/-- Run of the poll loop aborted by a transport error on poll `j` (so `j`
successful pending polls preceded it): the loop stops at once with the
error, after `j + 1` calls. -/
theorem pushPoll_err (vf : Nat → Except String VerifyFactorResponse) (e : String) :
    ∀ (j : Nat) (r : Nat → VerifyFactorResponse) (t idx : Nat), j < t →
    (∀ i, i ≤ j → (r i).status.type = "pending") →
    (∀ i, i < j → vf (idx + i) = Except.ok (r (i + 1))) →
    vf (idx + j) = Except.error e →
    pushPoll vf idx (r 0) t = (Except.error e, j + 1) := by
  intro j
  induction j with
  | zero =>
    intro r t idx hjt hp _ herr
    cases t with
    | zero => omega
    | succ t =>
      have h0 : (r 0).status.type = "pending" := hp 0 (by omega)
      have herr0 : vf idx = Except.error e := by simpa using herr
      simp [pushPoll, h0, herr0]
  | succ j ih =>
    intro r t idx hjt hp hv herr
    cases t with
    | zero => omega
    | succ t =>
      have h0 : (r 0).status.type = "pending" := hp 0 (by omega)
      have hv0 : vf idx = Except.ok (r 1) := by simpa using hv 0 (by omega)
      have hrec := ih (fun i => r (i + 1)) t (idx + 1) (by omega)
        (fun i hi => hp (i + 1) (by omega))
        (fun i hi => by
          have h := hv (i + 1) (by omega)
          have he : idx + 1 + i = idx + (i + 1) := by omega
          rw [he]; exact h)
        (by
          have he : idx + 1 + j = idx + (j + 1) := by omega
          rw [he]; exact herr)
      simp only [pushPoll, h0, if_true, hv0, hrec]

/-- An invalid input is consumed by the selection loop without changing
anything else: the loop re-prompts. -/
theorem selectLoop_skip (n : Nat) (e : InputEvent) (rest : List InputEvent)
    (h : invalidFor n e = true) :
    selectLoop n (e :: rest) = selectLoop n rest := by
  cases e with
  | readErr m => rfl
  | line s =>
    simp only [selectLoop]
    cases ha : atoi s with
    | none => rfl
    | some k =>
      have hk : k < 1 ∨ k > (n : Int) := by
        simp only [invalidFor, ha, Bool.or_eq_true, decide_eq_true_eq] at h
        exact h
      simp [hk]

/-- A run of invalid inputs never produces a selection: the loop is still
waiting for more input afterwards. -/
theorem selectLoop_all_invalid (n : Nat) :
    ∀ (bad : List InputEvent), (∀ e ∈ bad, invalidFor n e = true) →
    selectLoop n bad = none := by
  intro bad
  induction bad with
  | nil => intro _; rfl
  | cons e tail ih =>
    intro h
    rw [selectLoop_skip n e tail (h e (by simp))]
    exact ih fun x hx => h x (by simp [hx])

/-- The selection loop skips any run of invalid inputs and stops at the
first valid selection, leaving the remaining input untouched. -/
theorem selectLoop_valid (n : Nat) (s : String) (k : Int)
    (rest : List InputEvent) (hs : atoi s = some k) (hk1 : 1 ≤ k)
    (hk2 : k ≤ (n : Int)) :
    ∀ (bad : List InputEvent), (∀ e ∈ bad, invalidFor n e = true) →
    selectLoop n (bad ++ InputEvent.line s :: rest) = some (k, rest) := by
  intro bad
  induction bad with
  | nil =>
    intro _
    have hnk : ¬(k < 1 ∨ k > (n : Int)) := by omega
    simp [selectLoop, hs, hnk]
  | cons e tail ih =>
    intro h
    rw [List.cons_append, selectLoop_skip n e _ (h e (by simp))]
    exact ih fun x hx => h x (by simp [hx])

/-! ### Claim theorems -/

/-- C8: for every device set of size at least 2, device selection presents
a 1-indexed enumeration, re-prompts on every non-integer or out-of-range
input without failing the flow, and returns only once a valid integer in
`[1, len(devices)]` is supplied — then it returns the id and type of the
device at that 1-based position (with the rest of the input untouched). -/
theorem C8_multi_device_selection (devices : List Device)
    (bad : List InputEvent) (s : String) (rest : List InputEvent) (k : Int)
    (hlen : 2 ≤ devices.length)
    (hbad : ∀ e ∈ bad, invalidFor devices.length e = true)
    (hs : atoi s = some k) (hk1 : 1 ≤ k)
    (hk2 : k ≤ (devices.length : Int)) :
    (∀ i, i < devices.length →
      (deviceMenu devices)[i]? =
        some (toString (i + 1) ++ ". " ++
          toString ((devices.getD i ⟨0, ""⟩).deviceId) ++ " - " ++
          (devices.getD i ⟨0, ""⟩).deviceType)) ∧
    getDevice devices (bad ++ InputEvent.line s :: rest) =
      some (Except.ok
        (toString ((devices.getD (k - 1).toNat ⟨0, ""⟩).deviceId),
         (devices.getD (k - 1).toNat ⟨0, ""⟩).deviceType), rest) ∧
    getDevice devices bad = none := by
  refine ⟨?_, ?_, ?_⟩
  · intro i hi
    simp [deviceMenu, List.getElem?_map, List.getElem?_range, hi]
  · rcases devices with _ | ⟨d1, _ | ⟨d2, tl⟩⟩
    · simp at hlen
    · simp at hlen
    · simp only [getDevice]
      rw [selectLoop_valid (d1 :: d2 :: tl).length s k rest hs hk1 hk2 bad hbad]
  · rcases devices with _ | ⟨d1, _ | ⟨d2, tl⟩⟩
    · simp at hlen
    · simp at hlen
    · simp only [getDevice]
      rw [selectLoop_all_invalid (d1 :: d2 :: tl).length bad hbad]

/-- Witness for C8 at a concrete two-device set: a read error, a
non-integer, a too-small and a too-large entry are all skipped, then the
valid entry "2" selects the second device. -/
theorem C8_multi_device_selection_witness :
    getDevice [⟨11, "OneLogin SMS"⟩, ⟨22, "OneLogin Protect"⟩]
        ([InputEvent.readErr "eof", InputEvent.line "x", InputEvent.line "0",
          InputEvent.line "7"] ++ InputEvent.line "2" :: [InputEvent.line "zz"]) =
      some (Except.ok ("22", "OneLogin Protect"), [InputEvent.line "zz"]) := by
  have h := C8_multi_device_selection
    [⟨11, "OneLogin SMS"⟩, ⟨22, "OneLogin Protect"⟩]
    [InputEvent.readErr "eof", InputEvent.line "x", InputEvent.line "0",
      InputEvent.line "7"]
    "2" [InputEvent.line "zz"] 2 (by decide)
    (by intro e he; fin_cases he <;> decide)
    (by decide) (by decide) (by decide)
  exact h.2.1

/-- C3: for every push-capable device, if the verify-factor status becomes
`accepted` on poll `k` with `k × 1s < 30s`, the MFA verifier performs
exactly `k + 1` verify-factor calls — one initial call with
`doNotNotify = false`, then `k` polls with `doNotNotify = true` — and the
payload passed onward is the final call's response.  Call `i` of the whole
phase is answered by `r i`. -/
theorem C3_push_accept_poll_count (vf : Nat → Except String VerifyFactorResponse)
    (otp appId deviceID st : String) (k : Nat)
    (r : Nat → VerifyFactorResponse) (hk : k < MFAPushTimeout)
    (hvf : ∀ i, i ≤ k → vf i = Except.ok (r i))
    (hpend : ∀ i, i < k → (r i).status.type = "pending")
    (hacc : (r k).status.type = "accepted") :
    mfaPhase vf otp appId deviceID st MFADeviceOneLoginProtect =
      { result := Except.ok (r k),
        calls :=
          { appId := appId, deviceId := deviceID, stateToken := st,
            otpToken := "", doNotNotify := false } ::
          List.replicate k
            { appId := appId, deviceId := deviceID, stateToken := st,
              otpToken := "", doNotNotify := true },
        timedOut := false, otpUsed := false } := by
  have hvf0 : vf 0 = Except.ok (r 0) := hvf 0 (by omega)
  have hnp : (r k).status.type ≠ "pending" := by rw [hacc]; decide
  have hpoll : pushPoll vf 1 (r 0) MFAPushTimeout = (Except.ok (r k), k) :=
    pushPoll_run vf k r MFAPushTimeout 1 (by omega) hpend
      (fun i hi => by
        have h := hvf (i + 1) (by omega)
        have he : 1 + i = i + 1 := by omega
        rw [he]; exact h)
      hnp
  simp [mfaPhase, hvf0, hpoll, hacc]

/-- Witness for C3 with `k = 2`: two pending polls, acceptance on the
second, three calls in total. -/
theorem C3_push_accept_poll_count_witness :
    mfaPhase (fun i => Except.ok (if i < 2 then pendR else accR))
        "999" "app1" "2" "st1" MFADeviceOneLoginProtect =
      { result := Except.ok accR,
        calls :=
          { appId := "app1", deviceId := "2", stateToken := "st1",
            otpToken := "", doNotNotify := false } ::
          List.replicate 2
            { appId := "app1", deviceId := "2", stateToken := "st1",
              otpToken := "", doNotNotify := true },
        timedOut := false, otpUsed := false } := by
  have h := C3_push_accept_poll_count
    (fun i => Except.ok (if i < 2 then pendR else accR))
    "999" "app1" "2" "st1" 2 (fun i => if i < 2 then pendR else accR)
    (by decide) (fun i _ => rfl)
    (fun i hi => by
      show (if i < 2 then pendR else accR).status.type = "pending"
      rw [if_pos hi]; rfl)
    (by decide)
  exact h

/-- C4: if every verify-factor response through the whole budget stays
`pending`, the poll loop stops after exactly the 30-interval budget (and,
for any oracle, never exceeds it), the flow is not failed, and control
passes to manual OTP entry — whose call is the next verify-factor call. -/
theorem C4_push_timeout_falls_back (vf : Nat → Except String VerifyFactorResponse)
    (otp appId deviceID st : String) (r : Nat → VerifyFactorResponse)
    (hvf : ∀ i, i ≤ MFAPushTimeout → vf i = Except.ok (r i))
    (hpend : ∀ i, i ≤ MFAPushTimeout → (r i).status.type = "pending") :
    (∀ (vfa : Nat → Except String VerifyFactorResponse) (idx : Nat)
        (r0 : VerifyFactorResponse),
        (pushPoll vfa idx r0 MFAPushTimeout).2 ≤ MFAPushTimeout) ∧
    mfaPhase vf otp appId deviceID st MFADeviceOneLoginProtect =
      { result := (otpSubmit vf (1 + MFAPushTimeout) otp appId deviceID st).1,
        calls :=
          ({ appId := appId, deviceId := deviceID, stateToken := st,
             otpToken := "", doNotNotify := false } ::
           List.replicate MFAPushTimeout
             { appId := appId, deviceId := deviceID, stateToken := st,
               otpToken := "", doNotNotify := true }) ++
          [{ appId := appId, deviceId := deviceID, stateToken := st,
             otpToken := otp, doNotNotify := false }],
        timedOut := true, otpUsed := true } := by
  refine ⟨fun vfa idx r0 => pushPoll_count_le vfa MFAPushTimeout idx r0, ?_⟩
  have hvf0 : vf 0 = Except.ok (r 0) := hvf 0 (by omega)
  have hpoll : pushPoll vf 1 (r 0) MFAPushTimeout =
      (Except.ok (r MFAPushTimeout), MFAPushTimeout) :=
    pushPoll_pending vf MFAPushTimeout r 1
      (fun i hi => hpend i hi)
      (fun i hi => by
        have h := hvf (i + 1) (by omega)
        have he : 1 + i = i + 1 := by omega
        rw [he]; exact h)
  have hlast : (r MFAPushTimeout).status.type = "pending" := hpend _ (by omega)
  simp only [mfaPhase, if_pos rfl, hvf0, hpoll, hlast, otpSubmit]
  cases vf (1 + MFAPushTimeout) <;> simp

/-- Witness for C4: thirty-one pending responses, then an accepted OTP
submission; the trace is the initial call, thirty polls, one OTP call. -/
theorem C4_push_timeout_falls_back_witness :
    mfaPhase (fun i => Except.ok (if i ≤ 30 then pendR else accR))
        "999" "app1" "2" "st1" MFADeviceOneLoginProtect =
      { result := Except.ok accR,
        calls :=
          ({ appId := "app1", deviceId := "2", stateToken := "st1",
             otpToken := "", doNotNotify := false } ::
           List.replicate 30
             { appId := "app1", deviceId := "2", stateToken := "st1",
               otpToken := "", doNotNotify := true }) ++
          [{ appId := "app1", deviceId := "2", stateToken := "st1",
             otpToken := "999", doNotNotify := false }],
        timedOut := true, otpUsed := true } := by
  have h := C4_push_timeout_falls_back
    (fun i => Except.ok (if i ≤ 30 then pendR else accR))
    "999" "app1" "2" "st1" (fun _ => pendR)
    (fun i hi => by
      show Except.ok (if i ≤ 30 then pendR else accR) = Except.ok pendR
      have hi30 : i ≤ 30 := hi
      rw [if_pos hi30])
    (fun i _ => rfl)
  exact h.2

/-- C7: during the push phase, a transport error on the initial
verify-factor call or on any poll aborts the flow immediately with that
error; the OTP fallback never runs on a hard error (only a timeout
triggers it). -/
theorem C7_push_transport_error_aborts (vf : Nat → Except String VerifyFactorResponse)
    (otp appId deviceID st : String) (e : String) :
    (vf 0 = Except.error e →
      mfaPhase vf otp appId deviceID st MFADeviceOneLoginProtect =
        { result := Except.error e,
          calls := [{ appId := appId, deviceId := deviceID, stateToken := st,
                      otpToken := "", doNotNotify := false }],
          timedOut := false, otpUsed := false }) ∧
    (∀ (j : Nat) (r : Nat → VerifyFactorResponse), j < MFAPushTimeout →
      (∀ i, i ≤ j → vf i = Except.ok (r i)) →
      (∀ i, i ≤ j → (r i).status.type = "pending") →
      vf (j + 1) = Except.error e →
      mfaPhase vf otp appId deviceID st MFADeviceOneLoginProtect =
        { result := Except.error e,
          calls :=
            { appId := appId, deviceId := deviceID, stateToken := st,
              otpToken := "", doNotNotify := false } ::
            List.replicate (j + 1)
              { appId := appId, deviceId := deviceID, stateToken := st,
                otpToken := "", doNotNotify := true },
          timedOut := false, otpUsed := false }) := by
  constructor
  · intro h0
    simp [mfaPhase, h0]
  · intro j r hj hvf hpend herr
    have hvf0 : vf 0 = Except.ok (r 0) := hvf 0 (by omega)
    have hpoll : pushPoll vf 1 (r 0) MFAPushTimeout = (Except.error e, j + 1) :=
      pushPoll_err vf e j r MFAPushTimeout 1 (by omega) hpend
        (fun i hi => by
          have h := hvf (i + 1) (by omega)
          have he : 1 + i = i + 1 := by omega
          rw [he]; exact h)
        (by
          have he : 1 + j = j + 1 := by omega
          rw [he]; exact herr)
    simp [mfaPhase, hvf0, hpoll]

/-- Witness for C7: the first poll fails with a transport error after a
pending initial response; the phase aborts with that error and the OTP
branch does not run. -/
theorem C7_push_transport_error_aborts_witness :
    mfaPhase (fun i => if i = 0 then Except.ok pendR else Except.error "conn reset")
        "999" "app1" "2" "st1" MFADeviceOneLoginProtect =
      { result := Except.error "conn reset",
        calls :=
          { appId := "app1", deviceId := "2", stateToken := "st1",
            otpToken := "", doNotNotify := false } ::
          List.replicate 1
            { appId := "app1", deviceId := "2", stateToken := "st1",
              otpToken := "", doNotNotify := true },
        timedOut := false, otpUsed := false } := by
  have h := C7_push_transport_error_aborts
    (fun i => if i = 0 then Except.ok pendR else Except.error "conn reset")
    "999" "app1" "2" "st1" "conn reset"
  exact h.2 0 (fun _ => pendR) (by decide)
    (fun i hi => by
      have hz : i = 0 := by omega
      subst hz; rfl)
    (fun i _ => rfl) rfl

/-- C9: for every device set of size exactly 1, device selection returns
that device's id and type directly, consuming no user input and returning
no error. -/
theorem C9_single_device_direct (d : Device) (inputs : List InputEvent) :
    getDevice [d] inputs =
      some (Except.ok (toString d.deviceId, d.deviceType), inputs) := rfl

/-- Witness for C9 at a concrete singleton device set. -/
theorem C9_single_device_direct_witness :
    getDevice [⟨42, "OneLogin SMS"⟩] [InputEvent.line "zzz"] =
      some (Except.ok ("42", "OneLogin SMS"), [InputEvent.line "zzz"]) :=
  C9_single_device_direct ⟨42, "OneLogin SMS"⟩ [InputEvent.line "zzz"]

/-- C1 (bug evidence): on an empty device set `getDevice` does return the
"No MFA device returned by Onelogin" error, but `Get` drops that error
(line 94 assigns it to `err`, which is next overwritten by the OTP
verify-factor call without ever being checked) and the flow proceeds with
`deviceID = ""`, `deviceType = ""`: it prompts for an OTP, calls
verify-factor, exchanges credentials and succeeds, instead of failing
fatally with the device error. -/
theorem C1_empty_devices_error_dropped :
    getDevice ([] : List Device) [] =
      some (Except.error "No MFA device returned by Onelogin", []) ∧
    Get envC1 "app1" "prov" 3600 =
      some (Outcome.ok credsA,
        { verifyCalls := [{ appId := "app1", deviceId := "", stateToken := "st1",
                            otpToken := "123456", doNotNotify := false }],
          assumeDurations := [3600], pushTimedOut := false,
          durationExceededNotice := false, otpPrompted := true }) :=
  ⟨rfl, rfl⟩

/-- Counterexample to C2 as stated: a verify-factor response with status
`rejected` (and no transport error) does not fail the flow with an MFA
verification error — the status is never inspected on the OTP path, and
with cooperative downstream collaborators the flow returns credentials. -/
theorem C2_counterexample_rejected_status_not_fatal :
    envC2.verifyFactor 0 = Except.ok rejR ∧
    rejR.status.type = "rejected" ∧
    Get envC2 "app1" "prov" 43200 =
      some (Outcome.ok credsA,
        { verifyCalls := [{ appId := "app1", deviceId := "111", stateToken := "st1",
                            otpToken := "123456", doNotNotify := false }],
          assumeDurations := [43200], pushTimedOut := false,
          durationExceededNotice := false, otpPrompted := true }) :=
  ⟨rfl, rfl, rfl⟩

/-- C2 (amended): for every OTP submission, exactly one verify-factor call
carrying the entered code is issued, with no automatic retry; a transport
error fails the flow with the "verifying factor" error; the response
status is not inspected at this stage — any transport-successful response
is passed on unchanged. -/
theorem C2_otp_single_call (vf : Nat → Except String VerifyFactorResponse)
    (otp appId deviceID st deviceType : String)
    (hdt : deviceType ≠ MFADeviceOneLoginProtect) :
    mfaPhase vf otp appId deviceID st deviceType =
      { result :=
          match vf 0 with
          | Except.error e => Except.error ("verifying factor: " ++ e)
          | Except.ok r => Except.ok r,
        calls := [{ appId := appId, deviceId := deviceID, stateToken := st,
                    otpToken := otp, doNotNotify := false }],
        timedOut := false, otpUsed := true } := by
  simp only [mfaPhase, if_neg hdt, otpSubmit]
  cases vf 0 <;> rfl

/-- Witness for C2 (amended) at a transport error: the single OTP call
fails the flow with the wrapped error. -/
theorem C2_otp_single_call_witness :
    mfaPhase (fun _ => Except.error "boom") "111222" "app1" "11" "st1"
        "OneLogin SMS" =
      { result := Except.error "verifying factor: boom",
        calls := [{ appId := "app1", deviceId := "11", stateToken := "st1",
                    otpToken := "111222", doNotNotify := false }],
        timedOut := false, otpUsed := true } := by
  have h := C2_otp_single_call (fun _ => Except.error "boom")
    "111222" "app1" "11" "st1" "OneLogin SMS" (by decide)
  exact h

/-- C5: a `DurationExceeded` rejection on the first role-assumption
attempt followed by a successful retry at duration 3600 yields the second
attempt's credentials with no error; the rejection is reported only as
the informational notice. -/
theorem C5_duration_fallback_success (assume : Nat → Int → Except String Credentials)
    (duration : Int) (c : Credentials)
    (h1 : assume 0 duration = Except.error ErrDurationExceeded)
    (h2 : assume 1 3600 = Except.ok c) :
    exchangePhase assume duration = (Except.ok c, [duration, 3600], true) := by
  simp [exchangePhase, h1, h2]

/-- Witness for C5 at a concrete exchange oracle. -/
theorem C5_duration_fallback_success_witness :
    exchangePhase
      (fun i _ => if i = 0 then Except.error ErrDurationExceeded
                  else Except.ok credsA) 43200 =
      (Except.ok credsA, [43200, 3600], true) :=
  C5_duration_fallback_success
    (fun i _ => if i = 0 then Except.error ErrDurationExceeded
                else Except.ok credsA)
    43200 credsA rfl rfl

/-- C6: at most two role-assumption attempts per exchange; a first-attempt
success returns those credentials with no retry; a rejection other than
`DurationExceeded` is fatal as-is with no retry; after a `DurationExceeded`
rejection, the single 3600-second retry's outcome — credentials or its own
error — is what surfaces to the caller. -/
theorem C6_exchange_attempt_bounds (assume : Nat → Int → Except String Credentials)
    (duration : Int) :
    (exchangePhase assume duration).2.1.length ≤ 2 ∧
    (∀ c, assume 0 duration = Except.ok c →
      exchangePhase assume duration = (Except.ok c, [duration], false)) ∧
    (∀ e, assume 0 duration = Except.error e → e ≠ ErrDurationExceeded →
      exchangePhase assume duration = (Except.error e, [duration], false)) ∧
    (∀ c, assume 0 duration = Except.error ErrDurationExceeded →
      assume 1 3600 = Except.ok c →
      exchangePhase assume duration = (Except.ok c, [duration, 3600], true)) ∧
    (∀ e2, assume 0 duration = Except.error ErrDurationExceeded →
      assume 1 3600 = Except.error e2 →
      exchangePhase assume duration = (Except.error e2, [duration, 3600], true)) := by
  refine ⟨?_, ?_, ?_, ?_, ?_⟩
  · cases h0 : assume 0 duration with
    | ok c => simp [exchangePhase, h0]
    | error e =>
      by_cases he : e = ErrDurationExceeded
      · subst he
        cases h1 : assume 1 3600 <;> simp [exchangePhase, h0, h1]
      · simp [exchangePhase, h0, he]
  · intro c h0; simp [exchangePhase, h0]
  · intro e h0 hne; simp [exchangePhase, h0, hne]
  · intro c h0 h1; simp [exchangePhase, h0, h1]
  · intro e2 h0 h1; simp [exchangePhase, h0, h1]

/-- Witness for C6: both attempts rejected — the second rejection is what
surfaces, after exactly two attempts. -/
theorem C6_exchange_attempt_bounds_witness :
    exchangePhase
      (fun i _ => Except.error (if i = 0 then ErrDurationExceeded
                                else "AccessDenied")) 43200 =
      (Except.error "AccessDenied", [43200, 3600], true) := by
  have h := C6_exchange_attempt_bounds
    (fun i _ => Except.error (if i = 0 then ErrDurationExceeded
                              else "AccessDenied")) 43200
  exact h.2.2.2.2 "AccessDenied" rfl rfl

/-- The flow after a successful assertion with a first `Data` element in
hand never panics: the `Data[0]` access is the only unguarded index. -/
theorem afterAssertion_no_panic (env : Env) (appId : String) (duration : Int)
    (d0 : SamlData) (msg : String) (tr : Trace) :
    afterAssertion env appId duration d0 ≠ some (Outcome.panic msg, tr) := by
  simp only [afterAssertion]
  split
  · simp
  · split
    · simp
    · split
      · simp
      · split <;> simp

/-- C10: after a successful SAML-assertion request, `Get` unconditionally
indexes `Data[0]`: with an empty `Data` list the access is out of bounds
(a runtime panic), while with a non-empty list the flow can never panic. -/
theorem C10_data_zero_index (env : Env) (app prov : String) (dur : Int)
    (p : ProviderConfig) (a : AppConfig) (tok pwd : String)
    (h1 : env.getProvider = Except.ok p) (h2 : env.getApp = Except.ok a)
    (h3 : env.newClient = Except.ok ()) (h4 : env.generateTokens = Except.ok tok)
    (h5 : env.getPasswd = Except.ok pwd) :
    (env.generateSamlAssertion = Except.ok { data := [] } →
      Get env app prov dur =
        some (Outcome.panic "runtime error: index out of range [0] with length 0",
          {})) ∧
    (∀ d0 ds, env.generateSamlAssertion = Except.ok { data := d0 :: ds } →
      ∀ msg tr, Get env app prov dur ≠ some (Outcome.panic msg, tr)) := by
  constructor
  · intro h6
    simp [Get, h1, h2, h3, h4, h5, h6]
  · intro d0 ds h6 msg tr
    simp only [Get, h1, h2, h3, h4, h5, h6]
    exact afterAssertion_no_panic env a.id dur d0 msg tr

/-- Witness for C10: a concrete environment whose assertion response has
an empty `Data` list makes `Get` panic on the index. -/
theorem C10_data_zero_index_witness :
    Get envC10 "app1" "prov" 3600 =
      some (Outcome.panic "runtime error: index out of range [0] with length 0",
        {}) := by
  have h := C10_data_zero_index envC10 "app1" "prov" 3600
    ⟨"US", "cid", "csec", "alice", "corp"⟩ ⟨"app1"⟩ "tok" "pw"
    rfl rfl rfl rfl rfl
  exact h.1 rfl

end Onelogin
